import Mathlib

/-!
# Verification of the xmrig helper script's core logic

This file embeds, as pure Lean functions, the platform-detection, asset-matching
and configuration-rewriting logic of `src/script.py`, together with the
spec-described Asset Resolver and Version Comparator (which the script itself
delegates to interactive choice and to a remote service, respectively), and
proves the specified properties about them.
-/

namespace XmrigHelp

/-! ## String helpers

Python's `str.lower()` (over the ASCII range, which covers every key the script
compares against) and the substring operator `in`. -/

/-- ASCII lower-casing of a single character, as Python's `str.lower` acts on
the ASCII names the script handles. -/
def lowerChar (c : Char) : Char :=
  if 65 ≤ c.toNat ∧ c.toNat ≤ 90 then Char.ofNat (c.toNat + 32) else c

/-- `lowerStr s` models Python's `s.lower()` on ASCII strings. -/
def lowerStr (s : String) : String :=
  String.mk (s.toList.map lowerChar)

/-- Does `needle` occur as a contiguous sublist of the second argument?
Models Python's `needle in haystack` on the underlying character lists. -/
def substr_in (needle : List Char) : List Char → Bool
  | [] => needle.isEmpty
  | c :: rest => needle.isPrefixOf (c :: rest) || substr_in needle rest

/-- `containsStr s frag` models Python's `frag in s` (substring test). -/
def containsStr (s frag : String) : Bool :=
  substr_in frag.toList s.toList

/-- Lookup in an association list by string key; models Python's
`dict.get` / `dict[...]` on dictionaries represented as key/value lists. -/
def assocGet {α : Type} : List (String × α) → String → Option α
  | [], _ => none
  | (k', v) :: rest, k => if k' = k then some v else assocGet rest k

/-! ## Host Profiler (`detect_system`, src/script.py lines 26-53)

The script builds two literal dictionaries, lower-cases the raw names reported
by the runtime, and looks them up; the architecture lookup falls back to
`"arm32"` when the lowered machine string contains `"arm"`, else `"unknown"`. -/

/-- The `os_map` dictionary of `detect_system`. -/
def osMapPairs : List (String × String) :=
  [("linux", "linux"), ("darwin", "macos"), ("windows", "windows")]

/-- The `arch_map` dictionary of `detect_system`. -/
def archMapPairs : List (String × String) :=
  [("x86_64", "x64"), ("amd64", "x64"),
   ("i386", "x86"), ("i686", "x86"),
   ("aarch64", "arm64"), ("arm64", "arm64"),
   ("armv7l", "arm32"), ("armv6l", "arm32")]

/-- `os_name = os_map.get(platform.system().lower(), 'unknown')`. -/
def detect_os (osRaw : String) : String :=
  (assocGet osMapPairs (lowerStr osRaw)).getD "unknown"

/-- `arch = arch_map.get(machine, 'arm32' if 'arm' in machine else 'unknown')`
where `machine = platform.machine().lower()`. -/
def detect_arch (machineRaw : String) : String :=
  (assocGet archMapPairs (lowerStr machineRaw)).getD
    (if containsStr (lowerStr machineRaw) "arm" then "arm32" else "unknown")

/-- The `(os_name, arch)` pair returned by `detect_system`, as a function of
the raw strings the runtime reports. -/
def detect_system (osRaw machineRaw : String) : String × String :=
  (detect_os osRaw, detect_arch machineRaw)

/-! ## Asset matching (`find_matching_assets`, src/script.py lines 110-116) -/

/-- A release asset record as consumed by `find_matching_assets`:
the script reads the `os`, `id`, `name` and `url` fields of each asset dict. -/
structure Asset where
  os : String
  id : String
  name : String
  url : String
deriving DecidableEq, Repr

/-- `find_matching_assets(assets, os_name, arch)`: keeps, in original order,
every asset such that `f"{os_name}-{arch}"` equals the lowered `os` or `id`
field, or both `os_name` and `arch` occur as substrings of the lowered `os`
field, or both occur as substrings of the lowered `id` field. -/
def find_matching_assets (assets : List Asset) (os_name arch : String) : List Asset :=
  let os_arch := os_name ++ "-" ++ arch
  assets.filter (fun a =>
    (os_arch = lowerStr a.os ∨ os_arch = lowerStr a.id)
    ∨ (containsStr (lowerStr a.os) os_name ∧ containsStr (lowerStr a.os) arch)
    ∨ (containsStr (lowerStr a.id) os_name ∧ containsStr (lowerStr a.id) arch))

/-- The failure `main` reports when `find_matching_assets` returns `[]`:
`die("No matching assets found.")`. -/
inductive MainError where
  | noMatchingAssets
deriving DecidableEq, Repr

/-- The selection step of `main` (src/script.py lines 227-230):
`matches = find_matching_assets(...)`; abort when empty; take `matches[0]`
when it is a singleton; otherwise let the interactive `choose_asset`
(modelled by the `pick` argument) pick one of the matches. -/
def main_resolve (pick : List Asset → Asset) (assets : List Asset)
    (os_name arch : String) : Except MainError Asset :=
  match find_matching_assets assets os_name arch with
  | [] => .error .noMatchingAssets
  | [a] => .ok a
  | ms => .ok (pick ms)

/-! ## Spec-described Asset Resolver

`src/script.py` matches assets by their `os`/`id` metadata fields and lets an
interactive prompt disambiguate; the fragment-walking Asset Resolver of
spec §4.2 (codename-specific fragments, known-stable fallback codenames,
`static-<arch>`, and the linux `static-x64` emergency fallback) belongs to the
repository's other variants, which are not under `src/`.  The definitions
below are therefore modelled from the spec's words. -/

/-- Modelled from the spec: the closed operating-system enum of §3
({linux, windows, macos, unknown}). -/
inductive OSName where
  | linux | windows | macos | unknown
deriving DecidableEq, Repr

/-- Modelled from the spec: the architecture enum of §3
({x64, x86, arm64, arm32, unknown}). -/
inductive ArchName where
  | x64 | x86 | arm64 | arm32 | unknown
deriving DecidableEq, Repr

/-- The token each architecture contributes to a candidate fragment. -/
def archToken : ArchName → String
  | .x64 => "x64"
  | .x86 => "x86"
  | .arm64 => "arm64"
  | .arm32 => "arm32"
  | .unknown => "unknown"

/-- Modelled from the spec: the `HostProfile` of §3; an empty
`codename` means no distribution codename was found. -/
structure HostProfile where
  os : OSName
  arch : ArchName
  codename : String
deriving DecidableEq, Repr

/-- Modelled from the spec: the `ReleaseAsset` of §3 (display name and
download locator). -/
structure ReleaseAsset where
  displayName : String
  downloadLocator : String
deriving DecidableEq, Repr

/-- Modelled from the spec: §4.2 step 1's "small fixed fallback list of
known-stable codenames" for linux.  The spec does not name its members; its
own test cases (static asset chosen over a jammy asset when no codename is
known) require that the list not match a jammy build, so it is modelled by
two other long-term-support codenames. -/
def linuxKnownCodenames : List String :=
  ["focal", "bionic"]

/-- Modelled from the spec: §4.2 step 1, the ordered candidate fragment list,
most specific first.  Linux: codename fragment (when known), then the
known-stable codename fragments, then `static-<arch>`.  Windows:
`windows-<arch>`, a compiler-variant fragment, then the fixed
`windows-arm64` fallback.  macOS: `macos-<arch>` then the fixed fallbacks
for the two known architectures. -/
def candidate_fragments (p : HostProfile) : List String :=
  match p.os with
  | .linux =>
      (if p.codename = "" then [] else [p.codename ++ "-" ++ archToken p.arch])
        ++ linuxKnownCodenames.map (fun c => c ++ "-" ++ archToken p.arch)
        ++ ["static-" ++ archToken p.arch]
  | .windows => ["windows-" ++ archToken p.arch, "msvc-win64", "windows-arm64"]
  | .macos => ["macos-" ++ archToken p.arch, "macos-x64", "macos-arm64"]
  | .unknown => []

/-- First asset, in original order, whose display name contains the
fragment as a substring (spec §4.2 step 2). -/
def first_asset_matching (frag : String) (assets : List ReleaseAsset) :
    Option ReleaseAsset :=
  assets.find? (fun a => containsStr a.displayName frag)

/-- Walk the candidate fragments in order; the first fragment with any
match wins and later fragments are never consulted (spec §4.2 step 2). -/
def resolve_fragments (frags : List String) (assets : List ReleaseAsset) :
    Option ReleaseAsset :=
  match frags with
  | [] => none
  | f :: rest =>
      match first_asset_matching f assets with
      | some a => some a
      | none => resolve_fragments rest assets

/-- Modelled from the spec: the resolution failures of §7 that the Asset
Resolver can report. -/
inductive ResolutionFailure where
  | unsupportedPlatform
  | noMatchingAsset
deriving DecidableEq, Repr

/-- Modelled from the spec: §4.2 steps 2-4.  Walk the candidate fragments;
if none matches and the platform is linux, attempt the single hard-coded
`static-x64` fallback; otherwise fail with `noMatchingAsset`. -/
def resolve_asset (p : HostProfile) (assets : List ReleaseAsset) :
    Except ResolutionFailure ReleaseAsset :=
  match resolve_fragments (candidate_fragments p) assets with
  | some a => .ok a
  | none =>
      if p.os = .linux then
        match first_asset_matching "static-x64" assets with
        | some a => .ok a
        | none => .error .noMatchingAsset
      else .error .noMatchingAsset

/-- The two concrete assets of the spec's §8 resolver test cases. -/
def jammyAsset : ReleaseAsset :=
  ⟨"xmrig-jammy-x64.tar.gz", "https://example.invalid/jammy"⟩

/-- The generic statically-linked asset of the spec's §8 resolver tests. -/
def staticAsset : ReleaseAsset :=
  ⟨"xmrig-static-x64.tar.gz", "https://example.invalid/static"⟩

/-! ## Spec-described Version Comparator

`src/script.py` never compares two version strings itself: `check_for_update`
sends the installed version to a remote service (`?version_gt=...`) and lets
the server decide.  The §4.3 Version Comparator of the spec is therefore
modelled from the spec's words: split on `.`, parse the components as
non-negative integers, require exactly three, compare lexicographically. -/

/-- Split a character list at every `'.'` (the components of
`s.split('.')`): modelled from the spec's "split each on `.`". -/
def split_dots : List Char → List (List Char)
  | [] => [[]]
  | c :: rest =>
      if c = '.' then [] :: split_dots rest
      else
        match split_dots rest with
        | [] => [[c]]
        | h :: t => (c :: h) :: t

/-- Modelled from the spec: parse one dot-separated component as a
non-negative integer; empty or non-digit components fail. -/
def parse_component (cs : List Char) : Option Nat :=
  if cs ≠ [] ∧ cs.all Char.isDigit then
    some (cs.foldl (fun n c => n * 10 + (c.toNat - 48)) 0)
  else none

/-- Modelled from the spec: a well-formed `VersionString` is an integer
triple `N.N.N`; anything else is malformed. -/
def parse_version (s : String) : Option (Nat × Nat × Nat) :=
  match (split_dots s.toList).map parse_component with
  | [some a, some b, some c] => some (a, b, c)
  | _ => none

/-- The claim's well-formedness condition stated directly: exactly three
dot-separated components, each parsing as a non-negative integer. -/
def well_formed_version (s : String) : Bool :=
  (split_dots s.toList).length = 3
    && (split_dots s.toList).all (fun cs => (parse_component cs).isSome)

/-- Modelled from the spec: the §7 malformed-version failure. -/
inductive VersionError where
  | malformedVersionString
deriving DecidableEq, Repr

/-- Lexicographic comparison of two integer triples. -/
def tuple_lt (t u : Nat × Nat × Nat) : Bool :=
  decide (t.1 < u.1)
    || (decide (t.1 = u.1)
        && (decide (t.2.1 < u.2.1)
            || (decide (t.2.1 = u.2.1) && decide (t.2.2 < u.2.2))))

/-- Modelled from the spec: §4.3's `isOlder(installed, latest)`: parse both
version strings; any parse failure is a `malformedVersionString` error, and
otherwise the result is whether the first triple is lexicographically
smaller than the second. -/
def isOlder (installed latest : String) : Except VersionError Bool :=
  match parse_version installed, parse_version latest with
  | some t, some u => .ok (tuple_lt t u)
  | _, _ => .error .malformedVersionString

/-! ## Config rewriting (`update_config_json`, src/script.py lines 131-148)

`update_config_json` loads the extracted directory's `config.json`, and when
the parsed value has a non-empty list under `"pools"`, overwrites the first
pool's `url`, `user`, `tls` and `tls-fingerprint` entries with hard-coded
values before dumping the value back; when the `pools` condition fails, the
value is dumped back unchanged.  JSON values are embedded as `JVal`, objects
as key/value lists in file order. -/

/-- A JSON value as produced by `json.load`. -/
inductive JVal where
  | str (s : String)
  | num (n : Int)
  | bool (b : Bool)
  | null
  | arr (xs : List JVal)
  | obj (kvs : List (String × JVal))
deriving Repr

/-- Python's `d[k] = v` on a dict: the existing entry for `k` keeps its
position and gets the new value; a missing key is appended at the end. -/
def setKey : List (String × JVal) → String → JVal → List (String × JVal)
  | [], k, v => [(k, v)]
  | (k', v') :: rest, k, v =>
      if k' = k then (k, v) :: rest else (k', v') :: setKey rest k v

/-- The hard-coded pool URL written by `update_config_json`. -/
def poolUrl : String := "pool.hashvault.pro:443"

/-- The hard-coded wallet/user written by `update_config_json`. -/
def poolUser : String :=
  "4AUvAWKacmtPxR6xEYnZPSBZgVuwNtP4iKxsUsXAT9GGjCyrCuVkGhhcSQVxVo3zWDUYWCGMyHfavheUH3Hmjf49MzvBEfu"

/-- The hard-coded TLS fingerprint written by `update_config_json`. -/
def poolFingerprint : String :=
  "420c7850e09b7c0bdcf748a7da9eb3647daf8515718f36d9ccfdd6b9ff834b14"

/-- The four in-place assignments to `pool = config['pools'][0]`
(src/script.py lines 141-144). -/
def update_pool (pool : List (String × JVal)) : List (String × JVal) :=
  setKey (setKey (setKey (setKey pool
    "url" (.str poolUrl))
    "user" (.str poolUser))
    "tls" (.bool true))
    "tls-fingerprint" (.str poolFingerprint)

/-- The value-level effect of `update_config_json` on a parsed top-level
configuration object (src/script.py lines 139-146): when `"pools"` holds a
non-empty list whose first element is an object, that first pool is updated
and the result dumped; when the `pools` guard fails the object is dumped
unchanged; a non-object first pool raises inside the `try` block, so nothing
is written (`none`). -/
def update_config_json (kvs : List (String × JVal)) :
    Option (List (String × JVal)) :=
  match assocGet kvs "pools" with
  | some (.arr (p :: rest)) =>
      match p with
      | .obj pool =>
          some (setKey kvs "pools" (.arr (.obj (update_pool pool) :: rest)))
      | _ => none
  | _ => some kvs

/-- The negation of the guard on src/script.py line 139: `"pools"` is
absent, not a list, or an empty list. -/
def poolsInactive (kvs : List (String × JVal)) : Bool :=
  match assocGet kvs "pools" with
  | some (.arr (_ :: _)) => false
  | _ => true

/-! ## Concrete sample inputs used by the witnesses below -/

/-- An asset record whose `os` field happens to equal `"unknown-x64"`:
`find_matching_assets` selects it even for an unrecognized host OS. -/
def unknownAsset : Asset :=
  ⟨"unknown-x64", "any-id", "strange.tar.gz", "https://example.invalid/strange"⟩

/-- A sample first pool of a parsed `config.json`. -/
def pool0 : List (String × JVal) :=
  [("url", .str "pool.example.org:3333"), ("keepalive", .bool true)]

/-- The pools after the first one in the sample configuration. -/
def rest0 : List JVal :=
  [.obj [("url", .str "backup.example.org:3333")]]

/-- A sample parsed `config.json` with two pools and two unrelated
top-level keys. -/
def kvs0 : List (String × JVal) :=
  [("autosave", .bool true), ("pools", .arr (.obj pool0 :: rest0)),
   ("log-file", .null)]

/-- A sample parsed `config.json` with no `pools` key. -/
def noPools0 : List (String × JVal) :=
  [("autosave", .bool false)]

/-! ## Helper lemmas -/

/-- Walking the fragment list past a block of fragments with no match
reaches the first fragment that matches and returns its first match. -/
theorem resolve_fragments_of_pre_none (pre : List String) (f : String)
    (post : List String) (assets : List ReleaseAsset) (a : ReleaseAsset)
    (hpre : ∀ g ∈ pre, first_asset_matching g assets = none)
    (hf : first_asset_matching f assets = some a) :
    resolve_fragments (pre ++ f :: post) assets = some a := by
  induction pre with
  | nil => simp [resolve_fragments, hf]
  | cons g gs ih =>
    have hg : first_asset_matching g assets = none :=
      hpre g (List.mem_cons_self g gs)
    have hrec : resolve_fragments (gs ++ f :: post) assets = some a :=
      ih (fun x hx => hpre x (List.mem_cons_of_mem g hx))
    rw [List.cons_append]
    simp only [resolve_fragments, hg, hrec]

/-- Looking up a key of an association list with pairwise-distinct keys
finds the value it is paired with. -/
theorem assocGet_of_mem {α : Type} (ps : List (String × α)) (k : String)
    (v : α) (hnd : (ps.map Prod.fst).Nodup) (hmem : (k, v) ∈ ps) :
    assocGet ps k = some v := by
  induction ps with
  | nil => cases hmem
  | cons p rest ih =>
    obtain ⟨a, b⟩ := p
    simp only [List.map_cons, List.nodup_cons] at hnd
    rcases List.mem_cons.mp hmem with heq | hmem2
    · rw [Prod.mk.injEq] at heq
      obtain ⟨rfl, rfl⟩ := heq
      simp [assocGet]
    · have hk : a ≠ k := by
        intro hak
        subst hak
        exact hnd.1 (List.mem_map_of_mem Prod.fst hmem2)
      simp [assocGet, hk, ih hnd.2 hmem2]

/-- After `setKey l k v`, looking up `k` yields `v`. -/
theorem assocGet_setKey_self (l : List (String × JVal)) (k : String) (v : JVal) :
    assocGet (setKey l k v) k = some v := by
  induction l with
  | nil => simp [setKey, assocGet]
  | cons kv rest ih =>
    obtain ⟨a, b⟩ := kv
    by_cases hk : a = k
    · subst hk
      simp [setKey, assocGet]
    · simp [setKey, assocGet, hk, ih]

/-- After `setKey l k v`, looking up any other key is unchanged. -/
theorem assocGet_setKey_ne (l : List (String × JVal)) (k k' : String) (v : JVal)
    (hne : k' ≠ k) : assocGet (setKey l k v) k' = assocGet l k' := by
  induction l with
  | nil => simp [setKey, assocGet, Ne.symm hne]
  | cons kv rest ih =>
    obtain ⟨a, b⟩ := kv
    by_cases hk : a = k
    · subst hk
      simp [setKey, assocGet, Ne.symm hne, ih]
    · simp only [setKey, if_neg hk, assocGet, ih]

/-- A version string that is not a well-formed integer triple fails to
parse. -/
theorem parse_version_eq_none (s : String)
    (h : well_formed_version s = false) : parse_version s = none := by
  unfold parse_version
  split
  · rename_i a b c heq
    exfalso
    have hlen : (split_dots s.toList).length = 3 := by
      have h3 := congrArg List.length heq
      simpa using h3
    have hall : ∀ cs ∈ split_dots s.toList, (parse_component cs).isSome := by
      intro cs hcs
      have hmem : parse_component cs ∈
          (split_dots s.toList).map parse_component :=
        List.mem_map_of_mem parse_component hcs
      rw [heq] at hmem
      simp only [List.mem_cons, List.not_mem_nil, or_false] at hmem
      rcases hmem with h1 | h1 | h1 <;> simp [h1]
    have hallb : (split_dots s.toList).all
        (fun cs => (parse_component cs).isSome) = true :=
      List.all_eq_true.mpr hall
    unfold well_formed_version at h
    rw [hlen, hallb] at h
    simp at h
  · rfl

/-! ## The claims -/

/-- **C1**: for a linux profile, the Asset Resolver walks the ordered
candidate fragments and returns the first asset (in original asset order)
matching the first fragment that matches at all, never consulting later
fragments; in particular a codename `jammy` profile selects the jammy asset
and a codename-less profile selects the static asset. -/
theorem c1_resolver_first_fragment_wins (p : HostProfile)
    (assets : List ReleaseAsset) (pre post : List String) (f : String)
    (a : ReleaseAsset) (_hos : p.os = OSName.linux)
    (hsplit : candidate_fragments p = pre ++ f :: post)
    (hpre : ∀ g ∈ pre, first_asset_matching g assets = none)
    (hf : first_asset_matching f assets = some a) :
    resolve_asset p assets = .ok a ∧
    resolve_asset ⟨.linux, .x64, "jammy"⟩ [jammyAsset, staticAsset] =
      .ok jammyAsset ∧
    resolve_asset ⟨.linux, .x64, ""⟩ [jammyAsset, staticAsset] =
      .ok staticAsset := by
  refine ⟨?_, rfl, rfl⟩
  unfold resolve_asset
  rw [hsplit, resolve_fragments_of_pre_none pre f post assets a hpre hf]

/-- Witness for C1: the hypotheses hold at the spec's own jammy test case,
and the resolver picks the jammy asset there. -/
theorem c1_witness :
    candidate_fragments ⟨.linux, .x64, "jammy"⟩ =
      [] ++ "jammy-x64" :: ["focal-x64", "bionic-x64", "static-x64"] ∧
    first_asset_matching "jammy-x64" [jammyAsset, staticAsset] =
      some jammyAsset ∧
    resolve_asset ⟨.linux, .x64, "jammy"⟩ [jammyAsset, staticAsset] =
      .ok jammyAsset :=
  ⟨rfl, rfl,
    (c1_resolver_first_fragment_wins ⟨.linux, .x64, "jammy"⟩
      [jammyAsset, staticAsset] [] ["focal-x64", "bionic-x64", "static-x64"]
      "jammy-x64" jammyAsset rfl rfl
      (fun g hg => absurd hg (List.not_mem_nil g)) rfl).1⟩

/-- **C2**: on well-formed `N.N.N` inputs the Version Comparator returns
whether the first parsed integer triple is lexicographically smaller than
the second, with the three required example verdicts. -/
theorem c2_version_comparator_lexicographic (i l : String)
    (t u : Nat × Nat × Nat)
    (hi : parse_version i = some t) (hl : parse_version l = some u) :
    (isOlder i l = .ok true ↔
      (t.1 < u.1 ∨ (t.1 = u.1 ∧
        (t.2.1 < u.2.1 ∨ (t.2.1 = u.2.1 ∧ t.2.2 < u.2.2))))) ∧
    isOlder "6.25.0" "6.25.1" = .ok true ∧
    isOlder "6.25.1" "6.25.0" = .ok false ∧
    isOlder "6.25.0" "6.25.0" = .ok false := by
  refine ⟨?_, rfl, rfl, rfl⟩
  unfold isOlder
  rw [hi, hl]
  simp [tuple_lt]

/-- Witness for C2: both spec examples parse, and applying the theorem at
`("6.25.0", "6.25.1")` yields the `true` verdict. -/
theorem c2_witness :
    parse_version "6.25.0" = some (6, 25, 0) ∧
    parse_version "6.25.1" = some (6, 25, 1) ∧
    isOlder "6.25.0" "6.25.1" = .ok true :=
  ⟨rfl, rfl,
    ((c2_version_comparator_lexicographic "6.25.0" "6.25.1" (6, 25, 0)
        (6, 25, 1) rfl rfl).1).mpr (by decide)⟩

/-- **C3**: when either version string is not an integer triple, the
Version Comparator reports `malformedVersionString` rather than a boolean;
in particular on `("6.25", "6.25.0")`. -/
theorem c3_malformed_version_error (i l : String)
    (h : well_formed_version i = false ∨ well_formed_version l = false) :
    isOlder i l = .error .malformedVersionString ∧
    isOlder "6.25" "6.25.0" = .error .malformedVersionString := by
  refine ⟨?_, rfl⟩
  unfold isOlder
  rcases h with h | h
  · rw [parse_version_eq_none i h]
  · rw [parse_version_eq_none l h]
    rcases hi : parse_version i with _ | t <;> rfl

/-- Witness for C3: `"6.25"` is malformed (two components) and the
comparator rejects the pair `("6.25", "6.25.0")`. -/
theorem c3_witness :
    (well_formed_version "6.25" = false ∨
      well_formed_version "6.25.0" = false) ∧
    isOlder "6.25" "6.25.0" = .error .malformedVersionString :=
  ⟨Or.inl (by decide),
    (c3_malformed_version_error "6.25" "6.25.0" (Or.inl (by decide))).1⟩

/-- **C4, counterexample**: the script has no `UnsupportedPlatform` check:
with raw OS `"freebsd"` the Host Profiler yields `"unknown"`, yet `main`
still runs `find_matching_assets` and can even select an asset (one whose
`os` field is `"unknown-x64"`), so resolution does proceed. -/
theorem c4_counterexample :
    detect_system "freebsd" "x86_64" = ("unknown", "x64") ∧
    find_matching_assets [unknownAsset] "unknown" "x64" = [unknownAsset] ∧
    main_resolve (fun _ => unknownAsset) [unknownAsset] "unknown" "x64" =
      .ok unknownAsset :=
  ⟨by decide, rfl, rfl⟩

/-- **C4, amended**: when the Host Profiler maps the OS to `unknown`,
`main` proceeds to asset matching anyway; the run only aborts — with the
`"No matching assets found."` error, not an `UnsupportedPlatform` one —
when `find_matching_assets` finds nothing, and a matching asset is selected
as usual. -/
theorem c4_unknown_os_still_resolves (pick : List Asset → Asset)
    (assets : List Asset) (arch : String) (a : Asset) :
    (find_matching_assets assets "unknown" arch = [] →
      main_resolve pick assets "unknown" arch = .error .noMatchingAssets) ∧
    (find_matching_assets assets "unknown" arch = [a] →
      main_resolve pick assets "unknown" arch = .ok a) := by
  constructor <;> intro h <;> unfold main_resolve <;> rw [h]

/-- Witness for C4: both hypotheses are realized on concrete asset lists
with an unknown OS. -/
theorem c4_witness :
    find_matching_assets [] "unknown" "x64" = [] ∧
    main_resolve (fun _ => unknownAsset) [] "unknown" "x64" =
      .error .noMatchingAssets ∧
    find_matching_assets [unknownAsset] "unknown" "x64" = [unknownAsset] ∧
    main_resolve (fun _ => unknownAsset) [unknownAsset] "unknown" "x64" =
      .ok unknownAsset :=
  ⟨rfl,
    (c4_unknown_os_still_resolves (fun _ => unknownAsset) [] "x64"
      unknownAsset).1 rfl,
    rfl,
    (c4_unknown_os_still_resolves (fun _ => unknownAsset) [unknownAsset]
      "x64" unknownAsset).2 rfl⟩

/-- **C5**: on an empty asset list `find_matching_assets` matches nothing,
for every profile, and `main` aborts with the no-matching-assets error
rather than selecting anything. -/
theorem c5_empty_assets_no_match (pick : List Asset → Asset)
    (os_name arch : String) :
    find_matching_assets [] os_name arch = [] ∧
    main_resolve pick [] os_name arch = .error .noMatchingAssets :=
  ⟨rfl, rfl⟩

/-- **C6**: for a linux profile whose ordinary candidate fragments all fail,
the resolver attempts exactly the one hard-coded `static-x64` fallback: its
outcome alone decides between selecting that asset and reporting
`noMatchingAsset`; no other fallback is taken. -/
theorem c6_linux_static_fallback (p : HostProfile)
    (assets : List ReleaseAsset) (a : ReleaseAsset)
    (hos : p.os = OSName.linux)
    (hfail : resolve_fragments (candidate_fragments p) assets = none) :
    (first_asset_matching "static-x64" assets = some a →
      resolve_asset p assets = .ok a) ∧
    (first_asset_matching "static-x64" assets = none →
      resolve_asset p assets = .error .noMatchingAsset) := by
  constructor <;> intro h <;> unfold resolve_asset <;> rw [hfail] <;>
    simp [hos, h]

/-- Witness for C6: an arm64 linux profile with only the static x64 asset
published exhausts its ordinary fragments and then succeeds through the
fallback. -/
theorem c6_witness :
    resolve_fragments (candidate_fragments ⟨.linux, .arm64, ""⟩)
      [staticAsset] = none ∧
    first_asset_matching "static-x64" [staticAsset] = some staticAsset ∧
    resolve_asset ⟨.linux, .arm64, ""⟩ [staticAsset] = .ok staticAsset :=
  ⟨rfl, rfl,
    (c6_linux_static_fallback ⟨.linux, .arm64, ""⟩ [staticAsset]
      staticAsset rfl rfl).1 rfl⟩

/-- **C7**: any machine string outside the recognized `arch_map` keys whose
lowered form contains `"arm"` is mapped to `arm32`. -/
theorem c7_arm_substring_fallback (machineRaw : String)
    (h1 : assocGet archMapPairs (lowerStr machineRaw) = none)
    (h2 : containsStr (lowerStr machineRaw) "arm" = true) :
    detect_arch machineRaw = "arm32" := by
  unfold detect_arch
  rw [h1, h2]
  rfl

/-- Witness for C7: `"ARMv8l"` is not an `arch_map` key but contains
`arm`, and maps to `arm32`. -/
theorem c7_witness :
    assocGet archMapPairs (lowerStr "ARMv8l") = none ∧
    containsStr (lowerStr "ARMv8l") "arm" = true ∧
    detect_arch "ARMv8l" = "arm32" :=
  ⟨by decide, by decide,
    c7_arm_substring_fallback "ARMv8l" (by decide) (by decide)⟩

/-- **C8**: every recognized raw OS and architecture name, in any casing,
is mapped by `detect_system` to exactly the table's enum value. -/
theorem c8_recognized_mappings (osRaw machineRaw ko vo ka va : String)
    (ho : (ko, vo) ∈ osMapPairs) (ha : (ka, va) ∈ archMapPairs)
    (eo : lowerStr osRaw = ko) (ea : lowerStr machineRaw = ka) :
    detect_system osRaw machineRaw = (vo, va) := by
  have hosv : detect_os osRaw = vo := by
    unfold detect_os
    rw [eo, assocGet_of_mem osMapPairs ko vo (by decide) ho]
    rfl
  have harv : detect_arch machineRaw = va := by
    unfold detect_arch
    rw [ea, assocGet_of_mem archMapPairs ka va (by decide) ha]
    rfl
  unfold detect_system
  rw [hosv, harv]

/-- Witness for C8: mixed-case `"Darwin"` / `"AArch64"` hit the
`darwin ↦ macos` and `aarch64 ↦ arm64` table rows. -/
theorem c8_witness :
    ("darwin", "macos") ∈ osMapPairs ∧
    ("aarch64", "arm64") ∈ archMapPairs ∧
    lowerStr "Darwin" = "darwin" ∧ lowerStr "AArch64" = "aarch64" ∧
    detect_system "Darwin" "AArch64" = ("macos", "arm64") :=
  ⟨by decide, by decide, by decide, by decide,
    c8_recognized_mappings "Darwin" "AArch64" "darwin" "macos" "aarch64"
      "arm64" (by decide) (by decide) (by decide) (by decide)⟩

/-- **C9**: the asset-matching step is a pure function of its inputs (the
Lean embedding is a total function translated from a side-effect-free list
comprehension): two invocations on equal inputs give equal results. -/
theorem c9_resolver_deterministic (a1 a2 : List Asset) (o1 o2 r1 r2 : String)
    (ha : a1 = a2) (ho : o1 = o2) (hr : r1 = r2) :
    find_matching_assets a1 o1 r1 = find_matching_assets a2 o2 r2 := by
  rw [ha, ho, hr]

/-- Witness for C9: two identical concrete invocations coincide. -/
theorem c9_witness :
    find_matching_assets [unknownAsset] "linux" "x64" =
      find_matching_assets [unknownAsset] "linux" "x64" :=
  c9_resolver_deterministic [unknownAsset] [unknownAsset] "linux" "linux"
    "x64" "x64" rfl rfl rfl

/-- **C10**: when the parsed configuration holds a non-empty pool list whose
first pool is an object, `update_config_json` rewrites exactly the first
pool's `url`, `user`, `tls` and `tls-fingerprint` entries to the hard-coded
values; every other key of the first pool, all later pools, and every other
top-level key are unchanged; and when `pools` is absent, not a list, or
empty, the configuration is written back unchanged. -/
theorem c10_config_rewrite_frame (kvs pool : List (String × JVal))
    (rest : List JVal) (k : String) :
    (assocGet kvs "pools" = some (.arr (.obj pool :: rest)) →
      update_config_json kvs =
          some (setKey kvs "pools" (.arr (.obj (update_pool pool) :: rest))) ∧
        assocGet (update_pool pool) "url" = some (.str poolUrl) ∧
        assocGet (update_pool pool) "user" = some (.str poolUser) ∧
        assocGet (update_pool pool) "tls" = some (.bool true) ∧
        assocGet (update_pool pool) "tls-fingerprint" =
          some (.str poolFingerprint) ∧
        (k ∉ (["url", "user", "tls", "tls-fingerprint"] : List String) →
          assocGet (update_pool pool) k = assocGet pool k) ∧
        (k ≠ "pools" →
          assocGet
              (setKey kvs "pools" (.arr (.obj (update_pool pool) :: rest)))
              k =
            assocGet kvs k)) ∧
    (poolsInactive kvs = true → update_config_json kvs = some kvs) := by
  constructor
  · intro h
    refine ⟨?_, ?_, ?_, ?_, ?_, ?_, ?_⟩
    · unfold update_config_json
      rw [h]
    · unfold update_pool
      rw [assocGet_setKey_ne _ _ _ _ (by decide),
        assocGet_setKey_ne _ _ _ _ (by decide),
        assocGet_setKey_ne _ _ _ _ (by decide), assocGet_setKey_self]
    · unfold update_pool
      rw [assocGet_setKey_ne _ _ _ _ (by decide),
        assocGet_setKey_ne _ _ _ _ (by decide), assocGet_setKey_self]
    · unfold update_pool
      rw [assocGet_setKey_ne _ _ _ _ (by decide), assocGet_setKey_self]
    · unfold update_pool
      rw [assocGet_setKey_self]
    · intro hk
      simp only [List.mem_cons, List.not_mem_nil, or_false, not_or] at hk
      obtain ⟨hk1, hk2, hk3, hk4⟩ := hk
      unfold update_pool
      rw [assocGet_setKey_ne _ _ _ _ hk4, assocGet_setKey_ne _ _ _ _ hk3,
        assocGet_setKey_ne _ _ _ _ hk2, assocGet_setKey_ne _ _ _ _ hk1]
    · intro hkp
      rw [assocGet_setKey_ne _ _ _ _ hkp]
  · intro h
    unfold poolsInactive at h
    unfold update_config_json
    cases hm : assocGet kvs "pools" with
    | none => rfl
    | some jv =>
      rw [hm] at h
      cases jv with
      | str s => rfl
      | num n => rfl
      | bool b => rfl
      | null => rfl
      | obj o => rfl
      | arr xs =>
        cases xs with
        | nil => rfl
        | cons hd tl => exact absurd h Bool.false_ne_true

/-- Witness for C10: on a sample two-pool configuration the rewrite hits
only the first pool's four keys (its `keepalive` key and the top-level
`autosave` key survive), and a configuration without `pools` is written
back unchanged. -/
theorem c10_witness :
    assocGet kvs0 "pools" = some (.arr (.obj pool0 :: rest0)) ∧
    update_config_json kvs0 =
      some (setKey kvs0 "pools" (.arr (.obj (update_pool pool0) :: rest0))) ∧
    assocGet (update_pool pool0) "url" = some (.str poolUrl) ∧
    assocGet (update_pool pool0) "keepalive" = assocGet pool0 "keepalive" ∧
    assocGet (setKey kvs0 "pools" (.arr (.obj (update_pool pool0) :: rest0)))
        "autosave" =
      assocGet kvs0 "autosave" ∧
    poolsInactive noPools0 = true ∧
    update_config_json noPools0 = some noPools0 :=
  ⟨rfl,
    ((c10_config_rewrite_frame kvs0 pool0 rest0 "keepalive").1 rfl).1,
    ((c10_config_rewrite_frame kvs0 pool0 rest0 "keepalive").1 rfl).2.1,
    ((c10_config_rewrite_frame kvs0 pool0 rest0 "keepalive").1 rfl).2.2.2.2.2.1
      (by decide),
    ((c10_config_rewrite_frame kvs0 pool0 rest0 "autosave").1 rfl).2.2.2.2.2.2
      (by decide),
    rfl,
    (c10_config_rewrite_frame noPools0 pool0 rest0 "autosave").2 rfl⟩

end XmrigHelp
